import Mathlib

/-!
Shallow embedding of the FastAPI-Playwright capture service (`src/main.py`).

`Page`, `LeafElement` and `ItemElement` model the Playwright backend through
exactly the capability set the source invokes (attribute lookup, text content,
first-match query, all-match query, selector waits, full-page content,
screenshot bytes).  A selector is modelled as resolving within every bounded
wait iff it belongs to `Page.waitOk`; passing `None` as a selector to the
backend wait raises a non-timeout backend error, as the real backend does.
Browser instances are modelled by natural-number identities handed out by a
counter, with an environment function `conn : Nat → Bool` giving each
instance's connectivity status.  Every browser interaction and pipeline stage
performed by the code appends a `Step` to an explicit trace.
-/

namespace CaptureSvc

/-- Python `str.replace("\n", " ")` (single-character pattern). -/
def replaceNewlines (s : String) : String :=
  String.mk (s.data.map fun c => if c = '\n' then ' ' else c)

/-- Python `str.strip()` restricted to ASCII whitespace. -/
def pyStrip (s : String) : String :=
  String.mk (((s.data.dropWhile Char.isWhitespace).reverse.dropWhile
    Char.isWhitespace).reverse)

/-- The common text normalization the source applies at each extraction site:
`.replace("\n", " ").strip()`. -/
def normalizeText (s : String) : String :=
  pyStrip (replaceNewlines s)

/-- `search_in` request section (`src/main.py` class `SearchIn`). -/
structure SearchIn where
  search : Bool := false
  search_input_selector : Option String := none
  search_button_selector : Option String := none
  search_term : Option String := none
deriving DecidableEq, Repr

/-- `items_config` request section (`src/main.py` class `ItemsConfig`). -/
structure ItemsConfig where
  enabled : Bool := false
  item_selector : Option String := none
  title_selector : Option String := none
  date_selector : Option String := none
deriving DecidableEq, Repr

/-- `body_config` request section (`src/main.py` class `BodyConfig`). -/
structure BodyConfig where
  enabled : Bool := false
  body_selectors : List String := []
  title_selectors : List String := []
  date_selectors : List String := []
deriving DecidableEq, Repr

/-- The request body (`src/main.py` class `RequestBody`). -/
structure RequestBody where
  url : String
  browser : String := "chromium"
  screenshot : Bool := false
  search_in : SearchIn := {}
  items_config : ItemsConfig := {}
  body_config : BodyConfig := {}
deriving DecidableEq, Repr

/-- An element as the source observes it: its text content and attributes
(`text_content()` / `get_attribute(name)`). -/
structure LeafElement where
  textContent : String := ""
  attrs : List (String × String) := []
deriving DecidableEq, Repr

/-- An element returned by `query_selector_all(item_selector)`, observed
through the two queries the source performs on it: `sub` gives the first
descendant match per child selector (`item.query_selector(sel)`), and
`anchors` gives all `<a>` descendants in document order
(`item.query_selector_all("a")`). -/
structure ItemElement where
  sub : List (String × LeafElement) := []
  anchors : List LeafElement := []
deriving DecidableEq, Repr

/-- The backend page, restricted to the operations the source performs on it.
`metaTags` is `query_selector_all("meta")`; `firstMatch` gives
`page.query_selector`; `itemMatches` gives `page.query_selector_all` for item
selectors (absent key means no matches); `waitOk` lists the selectors that
resolve within any bounded `wait_for_selector`; `pageContent` is
`page.content()`; `shotBytes` is `page.screenshot()`. -/
structure Page where
  metaTags : List LeafElement := []
  firstMatch : List (String × LeafElement) := []
  itemMatches : List (String × List ItemElement) := []
  waitOk : List String := []
  pageContent : String := ""
  shotBytes : List Nat := []
deriving DecidableEq, Repr

deriving instance DecidableEq for Except

/-- Backend (Playwright) errors: a bounded wait timing out, or any other
backend failure (e.g. a `None` selector reaching the driver). -/
inductive PWError where
  | timeoutError : PWError
  | otherError : String → PWError
deriving DecidableEq, Repr

/-- Request-level failures: an HTTPException with status and detail, or an
uncaught backend error (surfacing as an unexpected server failure). -/
inductive HErr where
  | http : Nat → String → HErr
  | unexpected : PWError → HErr
deriving DecidableEq, Repr

/-- Browser interactions and pipeline stages, in execution order.  Every code
path of the embedding that touches the browser appends at least one step. -/
inductive Step where
  | launch : String → Step
  | newPage : Step
  | goto : String → Step
  | metaStep : Step
  | searchStep : Step
  | stabilize : Step
  | extractItems : Step
  | extractBody : Step
  | screenshotStep : Step
  | closePage : Step
  | waitSel : Option String → Nat → Step
deriving DecidableEq, Repr

/-- The `meta` dict built by `get_meta`: each key may be absent (`none`) or
present with the tag's `content` attribute, itself possibly `None`. -/
structure MetaInfo where
  description : Option (Option String) := none
  keywords : Option (Option String) := none
  title : Option (Option String) := none
deriving DecidableEq, Repr

/-- One entry of the per-item dict built by `get_items_content`. -/
structure ItemRecord where
  title : Option String := none
  links : List (Option String) := []
  date : Option String := none
deriving DecidableEq, Repr

/-- One `{selector, content}` entry produced by body extraction. -/
structure SelectorResult where
  selector : Option String := none
  content : Option String := none
deriving DecidableEq, Repr

/-- The dict returned by `get_body_content`. -/
structure BodyContent where
  title : List SelectorResult := []
  body : List SelectorResult := []
  date : List SelectorResult := []
deriving DecidableEq, Repr

/-- The dict returned by `capture_screenshot`. -/
structure ScreenshotInfo where
  size : String := ""
  base64 : String := ""
deriving DecidableEq, Repr

/-- The `page_info` result dict: `meta` is always present, the other keys only
when the corresponding feature was enabled. -/
structure PageInfo where
  meta : MetaInfo := {}
  items : Option (List ItemRecord) := none
  body : Option BodyContent := none
  screenshot : Option ScreenshotInfo := none
deriving DecidableEq, Repr

/-- Two-decimal digit padding for the fractional part of `fixed2`. -/
def pad2 (n : Nat) : String :=
  if n < 10 then "0" ++ toString n else toString n

/-- `num / den` rendered with two-decimal precision, rounding half to even as
Python's float formatting does (the quotients in `format_size` are exactly
representable, so the exact rational is what gets rounded). -/
def fixed2 (num den : Nat) : String :=
  let scaled := num * 100
  let q := scaled / den
  let r := scaled % den
  let rounded :=
    if 2 * r > den then q + 1
    else if 2 * r < den then q
    else if q % 2 = 0 then q else q + 1
  toString (rounded / 100) ++ "." ++ pad2 (rounded % 100)

/-- `format_size` (`src/main.py` lines 66-73). -/
def format_size (size : Nat) : String :=
  if size < 1024 then toString size ++ " B"
  else if size < 1024 ^ 2 then fixed2 size 1024 ++ " KB"
  else if size < 1024 ^ 3 then fixed2 size (1024 ^ 2) ++ " MB"
  else fixed2 size (1024 ^ 3) ++ " GB"

/-- The standard base64 alphabet. -/
def b64char (n : Nat) : Char :=
  "ABCDEFGHIJKLMNOPQRSTUVWXYZabcdefghijklmnopqrstuvwxyz0123456789+/".data.getD n 'A'

/-- Base64 encoding of a byte list (`base64.b64encode(...).decode("utf-8")`). -/
def b64encode : List Nat → String
  | [] => ""
  | [a] =>
      String.mk [b64char (a / 4), b64char (a % 4 * 16)] ++ "=="
  | [a, b] =>
      String.mk [b64char (a / 4), b64char (a % 4 * 16 + b / 16),
        b64char (b % 16 * 4)] ++ "="
  | a :: b :: c :: rest =>
      String.mk [b64char (a / 4), b64char (a % 4 * 16 + b / 16),
        b64char (b % 16 * 4 + c / 64), b64char (c % 64)] ++ b64encode rest

/-- `capture_screenshot` (`src/main.py` lines 76-81). -/
def capture_screenshot (page : Page) : ScreenshotInfo :=
  let screenshot := page.shotBytes
  { size := format_size screenshot.length, base64 := b64encode screenshot }

/-- The first `if` condition of `get_meta`'s loop body:
`name == "description" or property_attr == "og:description"`. -/
def matches_description (tag : LeafElement) : Bool :=
  tag.attrs.lookup "name" == some "description" ||
    tag.attrs.lookup "property" == some "og:description"

/-- The second (`elif`) condition of `get_meta`'s loop body:
`name == "keywords" or property_attr == "og:keywords"`. -/
def matches_keywords (tag : LeafElement) : Bool :=
  tag.attrs.lookup "name" == some "keywords" ||
    tag.attrs.lookup "property" == some "og:keywords"

/-- The third (`elif`) condition of `get_meta`'s loop body:
`property_attr == "og:title"`. -/
def matches_title (tag : LeafElement) : Bool :=
  tag.attrs.lookup "property" == some "og:title"

/-- `get_meta` (`src/main.py` lines 157-175): fold over all `<meta>` tags,
overwriting each key on every match, with the three conditions tried in
`if`/`elif` order. -/
def get_meta (page : Page) : MetaInfo :=
  let meta_tags := page.metaTags
  meta_tags.foldl (fun meta_info tag =>
    let content := tag.attrs.lookup "content"
    if matches_description tag then { meta_info with description := some content }
    else if matches_keywords tag then { meta_info with keywords := some content }
    else if matches_title tag then { meta_info with title := some content }
    else meta_info) {}

/-- The value the claim's reading assigns to one meta key: the `content`
attribute of the last tag satisfying `p`, absent when no tag matches.
Written from the spec's words ("the last tag matching each key determines the
corresponding meta field"). -/
def lastAssigned (p : LeafElement → Bool) (tags : List LeafElement) :
    Option (Option String) :=
  tags.foldl (fun acc tag =>
    if p tag then some (tag.attrs.lookup "content") else acc) none

/-- The body of `get_items_content`'s per-item loop (`src/main.py` lines
90-119).  Python truthiness: `if title_selector:` is taken only for a present,
non-empty selector string, and likewise for `date_selector`. -/
def build_item (title_selector date_selector : Option String)
    (item : ItemElement) : ItemRecord :=
  let title : Option String :=
    match title_selector with
    | some ts =>
        if ts ≠ "" then
          match item.sub.lookup ts with
          | some title_element =>
              some (pyStrip (replaceNewlines title_element.textContent))
          | none => some ""
        else none
    | none => none
  let links : List (Option String) :=
    let link_elements := item.anchors
    if !link_elements.isEmpty then
      link_elements.map (fun l => l.attrs.lookup "href")
    else [some ""]
  let date : Option String :=
    match date_selector with
    | some ds =>
        if ds ≠ "" then
          match item.sub.lookup ds with
          | some date_element =>
              some (pyStrip (replaceNewlines date_element.textContent))
          | none => some "无日期"
        else none
    | none => none
  { title := title, links := links, date := date }

/-- `get_items_content` (`src/main.py` lines 84-120).  The leading
`wait_for_selector(item_selector, timeout=10000)` raises a non-timeout backend
error when handed `None` as selector, raises the timeout error when the
selector never resolves within the bound, and otherwise lets the loop over
`query_selector_all(item_selector)` run.  The trace records the wait. -/
def get_items_content (page : Page)
    (item_selector title_selector date_selector : Option String) :
    Except PWError (List ItemRecord) × List Step :=
  match item_selector with
  | none =>
      (.error (PWError.otherError "selector: expected string, got undefined"),
        [Step.waitSel none 10000])
  | some sel =>
      if sel ∈ page.waitOk then
        let items := (page.itemMatches.lookup sel).getD []
        (.ok (items.map (build_item title_selector date_selector)),
          [Step.waitSel (some sel) 10000])
      else
        (.error PWError.timeoutError, [Step.waitSel (some sel) 10000])

/-- `get_content_by_selectors` (`src/main.py` lines 123-134): per selector,
wait up to 5000 ms; a timeout appends `{selector, content: None}`; a resolved
wait queries the first match and appends its normalized text only when the
query finds an element. -/
def get_content_by_selectors (page : Page) :
    List String → List SelectorResult × List Step
  | [] => ([], [])
  | selector :: rest =>
      let head : List SelectorResult :=
        if selector ∈ page.waitOk then
          match page.firstMatch.lookup selector with
          | some element =>
              [{ selector := some selector,
                 content := some (pyStrip (replaceNewlines element.textContent)) }]
          | none => []
        else
          [{ selector := some selector, content := none }]
      let rest_results := get_content_by_selectors page rest
      (head ++ rest_results.1, Step.waitSel (some selector) 5000 :: rest_results.2)

/-- `get_body_content` (`src/main.py` lines 137-154).  Python truthiness:
`if body_selectors:` is taken only for a non-empty list. -/
def get_body_content (page : Page)
    (body_selectors title_selectors date_selectors : List String) :
    BodyContent × List Step :=
  let body_part : List SelectorResult × List Step :=
    if !body_selectors.isEmpty then
      get_content_by_selectors page body_selectors
    else
      let all_text := page.pageContent
      ([{ selector := none, content := some all_text }], [])
  let title_part : List SelectorResult × List Step :=
    if !title_selectors.isEmpty then
      get_content_by_selectors page title_selectors
    else ([{ selector := none, content := some "" }], [])
  let date_part : List SelectorResult × List Step :=
    if !date_selectors.isEmpty then
      get_content_by_selectors page date_selectors
    else ([{ selector := none, content := some "" }], [])
  ({ title := title_part.1, body := body_part.1, date := date_part.1 },
    body_part.2 ++ title_part.2 ++ date_part.2)

/-- The process-wide pool `app.state.browser_instances`, with launched
instances identified by the naturals a counter hands out. -/
structure PoolState where
  instances : List (String × Nat) := []
  nextId : Nat := 0
deriving DecidableEq, Repr

/-- Python dict assignment `d[k] = v` on an association list. -/
def updateKey (l : List (String × Nat)) (k : String) (v : Nat) :
    List (String × Nat) :=
  match l with
  | [] => [(k, v)]
  | (k', v') :: rest =>
      if k' = k then (k, v) :: rest else (k', v') :: updateKey rest k v

/-- `restart_browser` (`src/main.py` lines 178-184): launch a fresh instance
and store it under the same key. -/
def restart_browser (pool : PoolState) (browser_type : String) :
    Nat × PoolState :=
  (pool.nextId,
    { instances := updateKey pool.instances browser_type pool.nextId,
      nextId := pool.nextId + 1 })

/-- The pool logic of `get_page_info` (`src/main.py` lines 195-206): launch
and store on first use, reuse a stored instance, and relaunch via
`restart_browser` when the instance in hand reports itself disconnected.
`conn` gives each instance's connectivity status. -/
def acquire (conn : Nat → Bool) (pool : PoolState) (browser_type : String) :
    Nat × PoolState × List Step :=
  let step1 : Nat × PoolState × List Step :=
    match pool.instances.lookup browser_type with
    | none =>
        (pool.nextId,
          ({ instances := updateKey pool.instances browser_type pool.nextId,
             nextId := pool.nextId + 1 } : PoolState),
          [Step.launch browser_type])
    | some b => (b, pool, [])
  if conn step1.1 then step1
  else
    let relaunched := restart_browser step1.2.1 browser_type
    (relaunched.1, relaunched.2, step1.2.2 ++ [Step.launch browser_type])

/-- `get_page_info` (`src/main.py` lines 187-252), with the source's actual
statement order: validate the browser type, acquire a browser, open a page,
navigate, extract metadata, attempt the search interaction (failures are
swallowed), wait for network idle (timeout is non-fatal), re-check the
items/body exclusivity, run items or body extraction, take the optional
screenshot, close the page.  A `PlaywrightTimeoutError` from items extraction
yields an empty `items` list; any other backend error propagates uncaught —
and on that path the page is never closed. -/
def get_page_info (conn : Nat → Bool) (pool : PoolState) (page : Page)
    (request_data : RequestBody) : Except HErr PageInfo × PoolState × List Step :=
  let browser_type := request_data.browser
  if browser_type ∈ ["chromium", "firefox", "webkit"] then
    let acq := acquire conn pool browser_type
    let pool2 := acq.2.1
    let tr := acq.2.2 ++ [Step.newPage, Step.goto request_data.url]
    let meta := get_meta page
    let tr := tr ++ [Step.metaStep]
    let tr := if request_data.search_in.search then tr ++ [Step.searchStep] else tr
    let tr := tr ++ [Step.stabilize]
    if request_data.items_config.enabled && request_data.body_config.enabled then
      (.error (.http 400 "列表页和详情页配置只能启用一个"), pool2, tr)
    else
      let itemsPart : Except (PWError × List Step) (Option (List ItemRecord) × List Step) :=
        if request_data.items_config.enabled then
          let ir := get_items_content page
            request_data.items_config.item_selector
            request_data.items_config.title_selector
            request_data.items_config.date_selector
          match ir.1 with
          | .ok l => .ok (some l, Step.extractItems :: ir.2)
          | .error PWError.timeoutError => .ok (some [], Step.extractItems :: ir.2)
          | .error e => .error (e, Step.extractItems :: ir.2)
        else .ok (none, [])
      match itemsPart with
      | .error eti => (.error (.unexpected eti.1), pool2, tr ++ eti.2)
      | .ok iti =>
        let tr := tr ++ iti.2
        let body_part : Option BodyContent × List Step :=
          if request_data.body_config.enabled then
            let bc := get_body_content page
              request_data.body_config.body_selectors
              request_data.body_config.title_selectors
              request_data.body_config.date_selectors
            (some bc.1, Step.extractBody :: bc.2)
          else (none, [])
        let tr := tr ++ body_part.2
        let shot_part : Option ScreenshotInfo × List Step :=
          if request_data.screenshot then
            (some (capture_screenshot page), [Step.screenshotStep])
          else (none, [])
        let tr := tr ++ shot_part.2 ++ [Step.closePage]
        (.ok { meta := meta, items := iti.1, body := body_part.1,
               screenshot := shot_part.1 }, pool2, tr)
  else
    (.error (.http 400 "无效的浏览器类型"), pool, [])

/-- The `/capture` endpoint (`src/main.py` lines 272-279): the URL truthiness
check and the items/body exclusivity gate run before `get_page_info` is
called, hence before any browser interaction. -/
def capture (conn : Nat → Bool) (pool : PoolState) (page : Page)
    (request_data : RequestBody) : Except HErr PageInfo × PoolState × List Step :=
  if request_data.url = "" then
    (.error (.http 400 "URL是必须的"), pool, [])
  else if request_data.items_config.enabled && request_data.body_config.enabled then
    (.error (.http 400 "列表页和详情页配置只能启用一个"), pool, [])
  else
    get_page_info conn pool page request_data

/-- The pipeline-stage steps named by the ordering claim (navigation,
stabilization, search, metadata, items-or-body extraction, screenshot,
disposal); launches, page creation and the individual selector waits are
sub-events of these stages. -/
def isPipelineStage : Step → Bool
  | .goto _ => true
  | .metaStep => true
  | .searchStep => true
  | .stabilize => true
  | .extractItems => true
  | .extractBody => true
  | .screenshotStep => true
  | .closePage => true
  | _ => false

/-- The per-item record exactly as the items-extraction claim states it:
`title` is present whenever a `titleSelector` is given and holds the
newline-to-space-replaced, trimmed text of the first match (empty string on no
match); `links` is every `<a>` descendant's `href` in document order with the
`[""]` placeholder for no descendants; `date` is present whenever a
`dateSelector` is given and holds the *trimmed* text of the first match
("无日期" on no match).  Written from the claim's words, for comparison with
`build_item`. -/
def claimItemStated (title_selector date_selector : Option String)
    (item : ItemElement) : ItemRecord :=
  { title :=
      match title_selector with
      | some ts =>
          some (match item.sub.lookup ts with
            | some e => pyStrip (replaceNewlines e.textContent)
            | none => "")
      | none => none,
    links :=
      if item.anchors = [] then [some ""]
      else item.anchors.map (fun a => a.attrs.lookup "href"),
    date :=
      match date_selector with
      | some ds =>
          some (match item.sub.lookup ds with
            | some e => pyStrip e.textContent
            | none => "无日期")
      | none => none }

/-- The per-item record of the amended items-extraction claim: a selector
counts as configured only when it is a non-empty string, and `date` undergoes
the same newline-to-space replacement before trimming that `title` does. -/
def claimItem (title_selector date_selector : Option String)
    (item : ItemElement) : ItemRecord :=
  { title :=
      match title_selector with
      | some ts =>
          if ts = "" then none
          else
            some (match item.sub.lookup ts with
              | some e => pyStrip (replaceNewlines e.textContent)
              | none => "")
      | none => none,
    links :=
      if item.anchors = [] then [some ""]
      else item.anchors.map (fun a => a.attrs.lookup "href"),
    date :=
      match date_selector with
      | some ds =>
          if ds = "" then none
          else
            some (match item.sub.lookup ds with
              | some e => pyStrip (replaceNewlines e.textContent)
              | none => "无日期")
      | none => none }

/-- The per-selector result of the amended body-extraction claim: a timeout
yields `{selector, content: null}`, a resolved selector yields the
newline-replaced, trimmed text of the first match. -/
def claimSelectorResult (page : Page) (s : String) : SelectorResult :=
  if s ∈ page.waitOk then
    { selector := some s,
      content :=
        some (pyStrip (replaceNewlines
          (((page.firstMatch.lookup s).getD {}).textContent))) }
  else
    { selector := some s, content := none }

/-- Fixture (items extraction): an item whose date element's text contains an
interior newline, and with no `<a>` descendants. -/
def itemB : ItemElement := { sub := [(".date", { textContent := "a\nb" })] }

/-- Fixture (items extraction): the item selector resolves to `itemB`. -/
def pageB : Page :=
  { itemMatches := [(".item", [itemB])], waitOk := [".item"] }

/-- Fixture (items extraction): items mode with an empty-string title selector
and a date selector. -/
def rdB : RequestBody :=
  { url := "https://example.com",
    items_config :=
      { enabled := true, item_selector := some ".item",
        title_selector := some "", date_selector := some ".date" } }

/-- Fixture (body extraction): `.b` resolves to an element whose text contains
an interior newline. -/
def pageC : Page :=
  { firstMatch := [(".b", { textContent := "x\ny" })], waitOk := [".b"] }

/-- Fixture (metadata): a plain keywords tag. -/
def tagK1 : LeafElement :=
  { attrs := [("name", "keywords"), ("content", "k1")] }

/-- Fixture (metadata): a tag matching both the description key (via
`property="og:description"`) and the keywords key (via `name="keywords"`). -/
def tagKX : LeafElement :=
  { attrs := [("name", "keywords"), ("property", "og:description"),
      ("content", "X")] }

/-- Fixture (ordering): the item selector resolves, no items matched. -/
def pageD : Page := { waitOk := [".result"] }

/-- Fixture (ordering): items mode with search and screenshot enabled. -/
def rdD : RequestBody :=
  { url := "https://example.com", screenshot := true,
    search_in := { search := true },
    items_config := { enabled := true, item_selector := some ".result" } }

/-- Fixture (disposal): items mode with the item selector absent, so items
extraction raises a non-timeout backend error. -/
def rdE : RequestBody :=
  { url := "https://example.com", items_config := { enabled := true } }

/-- Fixture (null item selector): same failing configuration as `rdE`, for the
unexpected-failure claim. -/
def rdF : RequestBody :=
  { url := "https://example.com", items_config := { enabled := true } }

/-- Fixture (pool): instance 5 is disconnected, every other instance is
connected. -/
def connW : Nat → Bool := fun n => decide (n ≠ 5)

/-- Fixture (pool): the chromium slot holds instance 5. -/
def poolW : PoolState := { instances := [("chromium", 5)], nextId := 6 }

/-- Fixture (normalization): an item with title and date elements whose text
needs both newline replacement and trimming. -/
def itemG : ItemElement :=
  { sub := [(".t", { textContent := " T\n1 " }), (".d", { textContent := "D\n2" })] }

/-- Fixture (normalization): `.s` resolves to an element with an interior
newline. -/
def pageG : Page :=
  { firstMatch := [(".s", { textContent := "B\n3" })], waitOk := [".s"] }

/-- Fixture (validation gate): a request with both extraction modes enabled. -/
def rdA : RequestBody :=
  { url := "https://example.com", items_config := { enabled := true },
    body_config := { enabled := true } }

theorem updateKey_lookup (l : List (String × Nat)) (k : String) (v : Nat) :
    (updateKey l k v).lookup k = some v := by
  induction l with
  | nil => simp [updateKey]
  | cons p rest ih =>
    obtain ⟨k', v'⟩ := p
    by_cases h : k' = k
    · simp [updateKey, h]
    · simp [updateKey, h, List.lookup, beq_eq_false_iff_ne.mpr (Ne.symm h), ih]

theorem acquire_stores (conn : Nat → Bool) (pool : PoolState) (bt : String) :
    (acquire conn pool bt).2.1.instances.lookup bt =
      some (acquire conn pool bt).1 := by
  unfold acquire restart_browser
  cases hl : pool.instances.lookup bt with
  | none =>
    by_cases hc : conn pool.nextId
    · simp [hl, hc, updateKey_lookup]
    · simp [hl, hc, updateKey_lookup]
  | some b =>
    by_cases hc : conn b
    · simp [hl, hc]
    · simp [hl, hc, updateKey_lookup]

/-- C1: whenever both `items_config.enabled` and `body_config.enabled` are
true, the `/capture` operation fails with HTTP 400 and its trace is empty, so
no browser interaction (launch, page creation, navigation, or page query) was
attempted before the failure. -/
theorem C1_validation_gate (conn : Nat → Bool) (pool : PoolState) (page : Page)
    (rd : RequestBody) (hi : rd.items_config.enabled = true)
    (hb : rd.body_config.enabled = true) :
    (∃ detail, (capture conn pool page rd).1 = .error (.http 400 detail)) ∧
      (capture conn pool page rd).2.2 = [] := by
  unfold capture
  by_cases hu : rd.url = ""
  · exact ⟨⟨"URL是必须的", by simp [hu]⟩, by simp [hu]⟩
  · exact ⟨⟨"列表页和详情页配置只能启用一个", by simp [hu, hi, hb]⟩,
      by simp [hu, hi, hb]⟩

theorem C1_validation_gate_witness :
    (∃ detail, (capture (fun _ => true) {} {} rdA).1 = .error (.http 400 detail)) ∧
      (capture (fun _ => true) {} {} rdA).2.2 = [] :=
  C1_validation_gate (fun _ => true) {} {} rdA (by decide) (by decide)

theorem gm_aux (tags : List LeafElement) (mi : MetaInfo) :
    tags.foldl (fun meta_info tag =>
      let content := tag.attrs.lookup "content"
      if matches_description tag then { meta_info with description := some content }
      else if matches_keywords tag then { meta_info with keywords := some content }
      else if matches_title tag then { meta_info with title := some content }
      else meta_info) mi =
    { description := tags.foldl (fun acc tag =>
        if matches_description tag then some (tag.attrs.lookup "content") else acc)
        mi.description,
      keywords := tags.foldl (fun acc tag =>
        if !matches_description tag && matches_keywords tag then
          some (tag.attrs.lookup "content") else acc) mi.keywords,
      title := tags.foldl (fun acc tag =>
        if !matches_description tag && !matches_keywords tag && matches_title tag then
          some (tag.attrs.lookup "content") else acc) mi.title } := by
  induction tags generalizing mi with
  | nil => rfl
  | cons t ts ih =>
    simp only [List.foldl]
    rw [ih]
    by_cases h1 : matches_description t
    · simp [h1]
    · by_cases h2 : matches_keywords t
      · simp [h1, h2]
      · by_cases h3 : matches_title t <;> simp [h1, h2, h3]

/-- C4 counterexample: a tag carrying both `name="keywords"` and
`property="og:description"` is the last tag matching the keywords key, yet
(because of the `elif` chain) it only overwrites `description`, so the
meta result differs from the claim's last-matching-tag-per-key reading. -/
theorem C4_meta_counterexample :
    get_meta { metaTags := [tagK1, tagKX] } ≠
      { description := lastAssigned matches_description [tagK1, tagKX],
        keywords := lastAssigned matches_keywords [tagK1, tagKX],
        title := lastAssigned matches_title [tagK1, tagKX] } := by decide

/-- C4 (amended): each `<meta>` tag is classified by the first matching rule
of the `if`/`elif` chain — description (`name="description"` or
`property="og:description"`), else keywords (`name="keywords"` or
`property="og:keywords"`), else title (`property="og:title"`) — and within
each class the last tag wins, later matches overwriting earlier ones. -/
theorem C4_meta_last_wins (page : Page) :
    get_meta page =
      { description := lastAssigned matches_description page.metaTags,
        keywords := lastAssigned
          (fun t => !matches_description t && matches_keywords t) page.metaTags,
        title := lastAssigned
          (fun t => !matches_description t && !matches_keywords t && matches_title t)
          page.metaTags } :=
  gm_aux page.metaTags {}

/-- C7: without an intervening disconnection, a second `acquire` for the same
variant returns the same browser instance; when the stored instance reports
itself disconnected, `acquire` returns a distinct, freshly launched instance
and stores it under the same variant key. -/
theorem C7_browser_pool (conn : Nat → Bool) (pool : PoolState) (bt : String) :
    (∀ b1 p1 t1, acquire conn pool bt = (b1, p1, t1) → conn b1 = true →
        (acquire conn p1 bt).1 = b1) ∧
    (∀ b, pool.instances.lookup bt = some b → conn b = false →
        b < pool.nextId →
        (acquire conn pool bt).1 ≠ b ∧
        (acquire conn pool bt).2.1.instances.lookup bt =
          some (acquire conn pool bt).1 ∧
        Step.launch bt ∈ (acquire conn pool bt).2.2) := by
  constructor
  · intro b1 p1 t1 h hconn
    have hstore := acquire_stores conn pool bt
    rw [h] at hstore
    simp only at hstore
    unfold acquire
    simp [hstore, hconn]
  · intro b hl hc hlt
    refine ⟨?_, acquire_stores conn pool bt, ?_⟩
    · unfold acquire restart_browser
      simp [hl, hc]
      omega
    · unfold acquire restart_browser
      simp [hl, hc]

theorem C7_browser_pool_witness :
    (acquire connW { instances := [("chromium", 6)], nextId := 7 } "chromium").1 = 6 ∧
      (acquire connW poolW "chromium").1 ≠ 5 := by
  constructor
  · exact (C7_browser_pool connW poolW "chromium").1 6
      { instances := [("chromium", 6)], nextId := 7 } [Step.launch "chromium"]
      (by decide) (by decide)
  · exact ((C7_browser_pool connW poolW "chromium").2 5 (by decide) (by decide)
      (by decide)).1

/-- C8: `format_size` renders byte counts below 1024 as `"<n> B"`, counts
below 1024² as the count over 1024 with two decimals and `" KB"`, analogously
MB below 1024³ and GB above; in particular 512 ↦ "512 B", 2048 ↦ "2.00 KB"
and 5·1024² ↦ "5.00 MB". -/
theorem C8_format_size (size : Nat) :
    (size < 1024 → format_size size = toString size ++ " B") ∧
    (1024 ≤ size → size < 1024 ^ 2 →
      format_size size = fixed2 size 1024 ++ " KB") ∧
    (1024 ^ 2 ≤ size → size < 1024 ^ 3 →
      format_size size = fixed2 size (1024 ^ 2) ++ " MB") ∧
    (1024 ^ 3 ≤ size → format_size size = fixed2 size (1024 ^ 3) ++ " GB") ∧
    format_size 512 = "512 B" ∧ format_size 2048 = "2.00 KB" ∧
    format_size (5 * 1024 ^ 2) = "5.00 MB" := by
  refine ⟨?_, ?_, ?_, ?_, by decide, by decide, by decide⟩
  · intro h
    unfold format_size
    rw [if_pos h]
  · intro h1 h2
    unfold format_size
    rw [if_neg (Nat.not_lt.mpr h1), if_pos h2]
  · intro h1 h2
    unfold format_size
    rw [if_neg (Nat.not_lt.mpr (le_trans (by norm_num) h1)),
      if_neg (Nat.not_lt.mpr h1), if_pos h2]
  · intro h1
    unfold format_size
    rw [if_neg (Nat.not_lt.mpr (le_trans (by norm_num) h1)),
      if_neg (Nat.not_lt.mpr (le_trans (by norm_num) h1)),
      if_neg (Nat.not_lt.mpr h1)]

theorem C8_format_size_witness :
    format_size 2048 = fixed2 2048 1024 ++ " KB" :=
  (C8_format_size 2048).2.1 (by decide) (by decide)

/-- C9: with items mode enabled but `item_selector` absent, the null selector
is handed to the backend wait (visible in the trace), the resulting backend
error is not a timeout and is not caught, and the request fails with the
unexpected-failure classification instead of an empty items list or an HTTP
400. -/
theorem C9_null_selector_unexpected (conn : Nat → Bool) (pool : PoolState)
    (page : Page) (rd : RequestBody)
    (hv : rd.browser ∈ ["chromium", "firefox", "webkit"])
    (hi : rd.items_config.enabled = true)
    (hb : rd.body_config.enabled = false)
    (hs : rd.items_config.item_selector = none) :
    (get_page_info conn pool page rd).1 =
      .error (.unexpected (.otherError "selector: expected string, got undefined")) ∧
      Step.waitSel none 10000 ∈ (get_page_info conn pool page rd).2.2 := by
  unfold get_page_info
  simp [hv, hi, hb, hs, get_items_content]

theorem C9_null_selector_unexpected_witness :
    (get_page_info (fun _ => true) {} {} rdF).1 =
      .error (.unexpected (.otherError "selector: expected string, got undefined")) ∧
      Step.waitSel none 10000 ∈ (get_page_info (fun _ => true) {} {} rdF).2.2 :=
  C9_null_selector_unexpected (fun _ => true) {} {} rdF (by decide) (by decide)
    (by decide) (by decide)

/-- C10: items title, items date and resolved body-selector content all
undergo the identical normalization — newline characters replaced by spaces,
then surrounding whitespace stripped. -/
theorem C10_normalization (ts ds s : String) (te de el : LeafElement)
    (item : ItemElement) (page : Page)
    (hts : ts ≠ "") (hds : ds ≠ "")
    (h1 : item.sub.lookup ts = some te) (h2 : item.sub.lookup ds = some de)
    (hw : s ∈ page.waitOk) (h3 : page.firstMatch.lookup s = some el) :
    (build_item (some ts) (some ds) item).title =
        some (normalizeText te.textContent) ∧
      (build_item (some ts) (some ds) item).date =
        some (normalizeText de.textContent) ∧
      (get_content_by_selectors page [s]).1 =
        [{ selector := some s, content := some (normalizeText el.textContent) }] := by
  refine ⟨?_, ?_, ?_⟩ <;>
    simp [build_item, get_content_by_selectors, normalizeText, hts, hds, h1, h2,
      hw, h3]

theorem C10_normalization_witness :
    (build_item (some ".t") (some ".d") itemG).title = some (normalizeText " T\n1 ") ∧
      (build_item (some ".t") (some ".d") itemG).date = some (normalizeText "D\n2") ∧
      (get_content_by_selectors pageG [".s"]).1 =
        [{ selector := some ".s", content := some (normalizeText "B\n3") }] :=
  C10_normalization ".t" ".d" ".s" { textContent := " T\n1 " }
    { textContent := "D\n2" } { textContent := "B\n3" } itemG pageG
    (by decide) (by decide) (by decide) (by decide) (by decide) (by decide)

theorem build_item_eq_claimItem (ts ds : Option String) (item : ItemElement) :
    build_item ts ds item = claimItem ts ds item := by
  obtain ⟨sub, anchors⟩ := item
  unfold build_item claimItem
  simp only [ItemRecord.mk.injEq]
  refine ⟨?_, ?_, ?_⟩
  · cases ts with
    | none => rfl
    | some s =>
      by_cases h : s = ""
      · simp [h]
      · cases hl : sub.lookup s <;> simp [h, hl]
  · cases anchors <;> simp
  · cases ds with
    | none => rfl
    | some s =>
      by_cases h : s = ""
      · simp [h]
      · cases hl : sub.lookup s <;> simp [h, hl]

theorem build_item_fun_eq (ts ds : Option String) :
    build_item ts ds = claimItem ts ds :=
  funext (build_item_eq_claimItem ts ds)

/-- C2 counterexample: with `titleSelector` given as the empty string and a
date element whose text contains an interior newline, the code omits the
title key (Python truthiness) and replaces the newline before trimming, so
the produced record differs from the claim's reading (`claimItemStated`). -/
theorem C2_items_counterexample :
    (get_items_content pageB (some ".item") (some "") (some ".date")).1 ≠
        .ok [claimItemStated (some "") (some ".date") itemB] ∧
      (get_items_content pageB (some ".item") (some "") (some ".date")).1 =
        .ok [{ title := none, links := [some ""], date := some "a b" }] := by
  constructor
  · decide
  · decide

/-- C2 (amended): with items mode enabled and an item selector string given,
the request succeeds; if the selector never resolves within the bound the
items field is the empty sequence, otherwise it maps every matched item in
document order to the record described by the claim, amended so that a
title/date selector counts as configured only when it is a non-empty string
and the date text undergoes the same newline-to-space replacement before
trimming as the title. -/
theorem C2_items_postcondition (conn : Nat → Bool) (pool : PoolState)
    (page : Page) (rd : RequestBody) (s : String)
    (hv : rd.browser ∈ ["chromium", "firefox", "webkit"])
    (hi : rd.items_config.enabled = true)
    (hb : rd.body_config.enabled = false)
    (hs : rd.items_config.item_selector = some s) :
    ∃ pi : PageInfo, (get_page_info conn pool page rd).1 = .ok pi ∧
      pi.items = some (if s ∈ page.waitOk then
        ((page.itemMatches.lookup s).getD []).map
          (claimItem rd.items_config.title_selector rd.items_config.date_selector)
      else []) := by
  have hmain : (get_page_info conn pool page rd).1 =
      .ok { meta := get_meta page,
            items := some (if s ∈ page.waitOk then
              ((page.itemMatches.lookup s).getD []).map
                (claimItem rd.items_config.title_selector
                  rd.items_config.date_selector)
            else []),
            body := none,
            screenshot := if rd.screenshot then some (capture_screenshot page)
              else none } := by
    unfold get_page_info
    by_cases hw : s ∈ page.waitOk <;> by_cases hscr : rd.screenshot <;>
      simp [hv, hi, hb, hs, hw, hscr, get_items_content, build_item_fun_eq]
  exact ⟨_, hmain, rfl⟩

theorem C2_items_postcondition_witness :
    ∃ pi : PageInfo, (get_page_info (fun _ => true) {} pageB rdB).1 = .ok pi ∧
      pi.items = some (if ".item" ∈ pageB.waitOk then
        ((pageB.itemMatches.lookup ".item").getD []).map
          (claimItem rdB.items_config.title_selector
            rdB.items_config.date_selector)
      else []) :=
  C2_items_postcondition (fun _ => true) {} pageB rdB ".item" (by decide)
    (by decide) (by decide) (by decide)

theorem gcbs_trace (page : Page) (l : List String) :
    (get_content_by_selectors page l).2 =
      l.map (fun s => Step.waitSel (some s) 5000) := by
  induction l with
  | nil => rfl
  | cons s rest ih => simp [get_content_by_selectors, ih]

theorem gcbs_results (page : Page)
    (hcoh : ∀ s, s ∈ page.waitOk → (page.firstMatch.lookup s).isSome)
    (l : List String) :
    (get_content_by_selectors page l).1 = l.map (claimSelectorResult page) := by
  induction l with
  | nil => rfl
  | cons s rest ih =>
    by_cases hw : s ∈ page.waitOk
    · obtain ⟨e, he⟩ := Option.isSome_iff_exists.mp (hcoh s hw)
      simp [get_content_by_selectors, claimSelectorResult, hw, he, ih]
    · simp [get_content_by_selectors, claimSelectorResult, hw, ih]

/-- C3 counterexample: a resolved body selector whose element text contains an
interior newline yields the newline-replaced trimmed text, not the merely
trimmed text the claim states. -/
theorem C3_body_counterexample :
    (get_content_by_selectors pageC [".b"]).1 ≠
        [{ selector := some ".b", content := some (pyStrip "x\ny") }] ∧
      (get_content_by_selectors pageC [".b"]).1 =
        [{ selector := some ".b", content := some "x y" }] := by
  constructor
  · decide
  · decide

/-- C3 (amended): per selector of a selector list a wait bounded by 5 seconds
is performed; a timeout appends `{selector, content: null}` and a resolved
selector appends `{selector, content: newline-replaced trimmed text}`, a
non-null (possibly empty) string; empty `bodySelectors` yield exactly one
entry with null selector and the full serialized page markup, while empty
`titleSelectors`/`dateSelectors` yield exactly one entry with null selector
and empty-string content. -/
theorem C3_body_extraction (page : Page)
    (body_selectors title_selectors date_selectors : List String)
    (hcoh : ∀ s, s ∈ page.waitOk → (page.firstMatch.lookup s).isSome) :
    (get_content_by_selectors page body_selectors).2 =
        body_selectors.map (fun s => Step.waitSel (some s) 5000) ∧
      (get_content_by_selectors page body_selectors).1 =
        body_selectors.map (claimSelectorResult page) ∧
      (body_selectors ≠ [] →
        (get_body_content page body_selectors title_selectors
          date_selectors).1.body = (get_content_by_selectors page body_selectors).1) ∧
      (get_body_content page [] title_selectors date_selectors).1.body =
        [{ selector := none, content := some page.pageContent }] ∧
      (get_body_content page body_selectors [] date_selectors).1.title =
        [{ selector := none, content := some "" }] ∧
      (get_body_content page body_selectors title_selectors []).1.date =
        [{ selector := none, content := some "" }] := by
  refine ⟨gcbs_trace page body_selectors, gcbs_results page hcoh body_selectors,
    ?_, ?_, ?_, ?_⟩
  · intro hne
    cases body_selectors with
    | nil => exact absurd rfl hne
    | cons a rest => simp [get_body_content]
  · simp [get_body_content]
  · simp [get_body_content]
  · simp [get_body_content]

theorem C3_body_extraction_witness :
    (get_content_by_selectors pageC [".b"]).2 =
        [".b"].map (fun s => Step.waitSel (some s) 5000) ∧
      (get_content_by_selectors pageC [".b"]).1 =
        [".b"].map (claimSelectorResult pageC) ∧
      (([".b"] : List String) ≠ [] →
        (get_body_content pageC [".b"] [".t"] [".d"]).1.body =
          (get_content_by_selectors pageC [".b"]).1) ∧
      (get_body_content pageC [] [".t"] [".d"]).1.body =
        [{ selector := none, content := some pageC.pageContent }] ∧
      (get_body_content pageC [".b"] [] [".d"]).1.title =
        [{ selector := none, content := some "" }] ∧
      (get_body_content pageC [".b"] [".t"] []).1.date =
        [{ selector := none, content := some "" }] :=
  C3_body_extraction pageC [".b"] [".t"] [".d"]
    (by intro s hs; simp [pageC] at hs; subst hs; decide)

theorem filter_stage_waits (l : List String) (t : Nat) :
    ((l.map fun s => Step.waitSel (some s) t).filter isPipelineStage) = [] := by
  induction l with
  | nil => rfl
  | cons a rest ih => simp [isPipelineStage, ih]

theorem acquire_trace_stages (conn : Nat → Bool) (pool : PoolState)
    (bt : String) :
    ((acquire conn pool bt).2.2.filter isPipelineStage) = [] := by
  unfold acquire restart_browser
  cases hl : pool.instances.lookup bt with
  | none => by_cases hc : conn pool.nextId <;> simp [hl, hc, isPipelineStage]
  | some b => by_cases hc : conn b <;> simp [hl, hc, isPipelineStage]

theorem gbc_trace_stages (page : Page) (b t d : List String) :
    ((get_body_content page b t d).2.filter isPipelineStage) = [] := by
  unfold get_body_content
  by_cases hb : b.isEmpty <;> by_cases ht : t.isEmpty <;>
    by_cases hd : d.isEmpty <;>
      simp [hb, ht, hd, List.filter_append, gcbs_trace, filter_stage_waits]

/-- C5 counterexample: for a concrete items-mode request with search and
screenshot enabled, the executed pipeline stages do not follow the claimed
order navigate → stabilize → search → meta → extraction → screenshot →
disposal. -/
theorem C5_order_counterexample :
    ((get_page_info (fun _ => true) {} pageD rdD).2.2.filter isPipelineStage) ≠
      [Step.goto "https://example.com", Step.stabilize, Step.searchStep,
        Step.metaStep, Step.extractItems, Step.screenshotStep,
        Step.closePage] := by
  decide

/-- C5 (amended): within one successfully completing request the pipeline
steps execute strictly in the order navigate, then metadata extraction, then
search interaction, then network-idle stabilization, then items-or-body
extraction, then screenshot, then page disposal. -/
theorem C5_pipeline_order (conn : Nat → Bool) (pool : PoolState) (page : Page)
    (rd : RequestBody) (hv : rd.browser ∈ ["chromium", "firefox", "webkit"]) :
    (∀ s, rd.items_config.enabled = true → rd.body_config.enabled = false →
        rd.items_config.item_selector = some s →
        ((get_page_info conn pool page rd).2.2.filter isPipelineStage) =
          [Step.goto rd.url, Step.metaStep] ++
            (if rd.search_in.search then [Step.searchStep] else []) ++
            [Step.stabilize, Step.extractItems] ++
            (if rd.screenshot then [Step.screenshotStep] else []) ++
            [Step.closePage]) ∧
    (rd.body_config.enabled = true → rd.items_config.enabled = false →
        ((get_page_info conn pool page rd).2.2.filter isPipelineStage) =
          [Step.goto rd.url, Step.metaStep] ++
            (if rd.search_in.search then [Step.searchStep] else []) ++
            [Step.stabilize, Step.extractBody] ++
            (if rd.screenshot then [Step.screenshotStep] else []) ++
            [Step.closePage]) := by
  constructor
  · intro s hi hb hs
    unfold get_page_info
    by_cases hw : s ∈ page.waitOk <;> by_cases hsr : rd.search_in.search <;>
      by_cases hscr : rd.screenshot <;>
        simp [hv, hi, hb, hs, hw, hsr, hscr, get_items_content,
          List.filter_append, acquire_trace_stages, filter_stage_waits,
          isPipelineStage]
  · intro hb hi
    unfold get_page_info
    by_cases hsr : rd.search_in.search <;> by_cases hscr : rd.screenshot <;>
      simp [hv, hi, hb, hsr, hscr, List.filter_append, acquire_trace_stages,
        gbc_trace_stages, isPipelineStage]

theorem C5_pipeline_order_witness :
    ((get_page_info (fun _ => true) {} pageD rdD).2.2.filter isPipelineStage) =
      [Step.goto rdD.url, Step.metaStep] ++
        (if rdD.search_in.search then [Step.searchStep] else []) ++
        [Step.stabilize, Step.extractItems] ++
        (if rdD.screenshot then [Step.screenshotStep] else []) ++
        [Step.closePage] :=
  (C5_pipeline_order (fun _ => true) {} pageD rdD (by decide)).1 ".result"
    (by decide) (by decide) (by decide)

theorem close_or_error (conn : Nat → Bool) (pool : PoolState) (page : Page)
    (rd : RequestBody) :
    (∃ e, (get_page_info conn pool page rd).1 = .error e) ∨
      Step.closePage ∈ (get_page_info conn pool page rd).2.2 := by
  by_cases hv : rd.browser ∈ ["chromium", "firefox", "webkit"]
  · by_cases hdual : (rd.items_config.enabled && rd.body_config.enabled) = true
    · exact .inl ⟨HErr.http 400 "列表页和详情页配置只能启用一个",
        by simp [get_page_info, hv, hdual]⟩
    · by_cases hi : rd.items_config.enabled = true
      · have hb : rd.body_config.enabled = false := by
          simpa [hi, Bool.not_eq_true] using hdual
        cases hs : rd.items_config.item_selector with
        | none =>
          exact .inl ⟨HErr.unexpected
            (PWError.otherError "selector: expected string, got undefined"),
            by simp [get_page_info, hv, hdual, hi, hb, hs, get_items_content]⟩
        | some s =>
          by_cases hw : s ∈ page.waitOk
          · exact .inr (by
              simp [get_page_info, hv, hdual, hi, hb, hs, hw, get_items_content])
          · exact .inr (by
              simp [get_page_info, hv, hdual, hi, hb, hs, hw, get_items_content])
      · by_cases hbody : rd.body_config.enabled = true
        · exact .inr (by simp [get_page_info, hv, hdual, hi, hbody])
        · exact .inr (by simp [get_page_info, hv, hdual, hi, hbody])
  · exact .inl ⟨HErr.http 400 "无效的浏览器类型", by simp [get_page_info, hv]⟩

/-- C6 counterexample: an items-mode request whose item selector is absent
fails with an uncaught backend error, and the page created for it is never
closed — disposal is not executed on this exit path. -/
theorem C6_dispose_counterexample :
    (∃ e, (get_page_info (fun _ => true) {} {} rdE).1 = .error e) ∧
      Step.closePage ∉ (get_page_info (fun _ => true) {} {} rdE).2.2 := by
  refine ⟨⟨HErr.unexpected
    (PWError.otherError "selector: expected string, got undefined"), ?_⟩, ?_⟩
  · decide
  · decide

/-- C6 (amended): page disposal is executed on every successfully terminating
request; a request that fails during extraction exits without closing its
page. -/
theorem C6_close_on_success (conn : Nat → Bool) (pool : PoolState)
    (page : Page) (rd : RequestBody) (pi : PageInfo)
    (h : (get_page_info conn pool page rd).1 = .ok pi) :
    Step.closePage ∈ (get_page_info conn pool page rd).2.2 := by
  rcases close_or_error conn pool page rd with ⟨e, he⟩ | hm
  · rw [h] at he
    exact absurd he (by simp)
  · exact hm

theorem C6_close_on_success_witness :
    Step.closePage ∈ (get_page_info (fun _ => true) {} {} { url := "u" }).2.2 :=
  C6_close_on_success (fun _ => true) {} {} { url := "u" } {} (by decide)

end CaptureSvc
